import Mathlib

/-!
Shallow embedding of the three pygame prototypes in this repository
(`bouncing_ball.py`, `rpg.py`, `simple_game.py`) and proofs about the
scene/entity/animation core described in the specification.

Python floats are modelled as rationals, Python ints as `Nat`/`Int`.
Mutation is modelled by explicit state passing; Python's `int()`
truncation toward zero and `round()` (half to even) are given faithful
counterparts below.  External resources (surfaces, sprites, sounds) are
dropped or replaced by their identifying data (names, sizes), which is
all the core logic reads from them.
-/

namespace PygameExp

/-- Python `int()` applied to a float: truncation toward zero. -/
def pytrunc (q : ℚ) : ℤ := if 0 ≤ q then ⌊q⌋ else ⌈q⌉

/-- Python `round()` applied to a float: round half to even. -/
def pyround (q : ℚ) : ℤ :=
  let f := ⌊q⌋
  let r := q - f
  if r < 1/2 then f
  else if 1/2 < r then f + 1
  else if f % 2 = 0 then f else f + 1

/-- Python `dict[key] = value`: replace the binding when the key is
present (keeping insertion order), append it otherwise. -/
def dictSet {α : Type} : List (String × α) → String → α → List (String × α)
  | [], k, v => [(k, v)]
  | (k', v') :: rest, k, v =>
      if k' = k then (k, v) :: rest else (k', v') :: dictSet rest k v

/-- Python `dict[key]` read: `some` value, or `none` (a `KeyError`). -/
def dictGet {α : Type} : List (String × α) → String → Option α
  | [], _ => none
  | (k', v') :: rest, k => if k' = k then some v' else dictGet rest k

theorem dictGet_dictSet {α : Type} (l : List (String × α)) (k : String) (v : α) :
    dictGet (dictSet l k v) k = some v := by
  induction l with
  | nil => simp [dictSet, dictGet]
  | cons hd tl ih =>
      obtain ⟨k', v'⟩ := hd
      by_cases h : k' = k <;> simp [dictSet, dictGet, h, ih]

/-! ## `bouncing_ball.py` -/

namespace BB

/-- `Player` of the bouncer: position, velocity, gravity and the
bounding rect (its top-left corner; the size is the sprite's). -/
structure Player where
  x : ℚ
  y : ℚ
  velocity : ℚ
  gravity_constant : ℚ
  rect : ℤ × ℤ
  deriving Repr, DecidableEq

/-- `Player.update`: `y += velocity * dt`, then
`velocity += gravity_constant * dt`, then the rect is recomputed from
the truncated position (`x` is never moved by the bouncer). -/
def Player.update (dt : ℚ) (p : Player) : Player :=
  let y := p.y + p.velocity * dt
  let velocity := p.velocity + p.gravity_constant * dt
  { p with y := y, velocity := velocity, rect := (pytrunc p.x, pytrunc y) }

/-- One block of a Flappy-Bird style obstacle. -/
structure ObstacleBlock where
  x : ℚ
  y : ℚ
  velocity : ℚ
  rect : ℤ × ℤ
  deriving Repr, DecidableEq

/-- `ObstacleBlock.update`: `x += velocity * dt`, rect recomputed from the
truncated position. -/
def ObstacleBlock.update (dt : ℚ) (b : ObstacleBlock) : ObstacleBlock :=
  let x := b.x + b.velocity * dt
  { b with x := x, rect := (pytrunc x, pytrunc b.y) }

/-- A Flappy-Bird style obstacle: a column of blocks with a gap.
`gap_range` is `(gap_loc, gap_loc + gap_height)` as in the source. -/
structure Obstacle where
  x : ℚ
  y : ℚ
  velocity : ℚ
  screen_height : ℕ
  num_blocks : ℕ
  gap_range : ℕ × ℕ
  blocks : List ObstacleBlock
  passed : Bool
  deriving Repr, DecidableEq

/-- `Obstacle.create_blocks`: a block is created for row `i` of
`range num_blocks` exactly when `i < gap_range.1 or i > gap_range.2`
(the source's condition verbatim); its x is the obstacle's x and its y is
`i * BLOCK_SIZE` with `BLOCK_SIZE = 48`.  A fresh block's rect starts at
the origin (pygame's `sprite.get_rect()`). -/
def Obstacle.create_blocks (x velocity : ℚ) (num_blocks : ℕ)
    (gap_range : ℕ × ℕ) : List ObstacleBlock :=
  (List.range num_blocks).filterMap fun i =>
    if i < gap_range.1 ∨ gap_range.2 < i then
      some { x := x, y := (48 : ℚ) * i, velocity := velocity, rect := (0, 0) }
    else none

/-- `Obstacle.__init__`: `num_blocks = round(screen_height / 48)`,
`gap_range = (gap_loc, gap_loc + gap_height)`, blocks from
`create_blocks`, `passed = False`. -/
def Obstacle.init (x_spawn y_spawn velocity : ℚ) (screen_height : ℕ)
    (gap_height gap_loc : ℕ) : Obstacle :=
  let num_blocks := (pyround ((screen_height : ℚ) / 48)).toNat
  let gap_range := (gap_loc, gap_loc + gap_height)
  { x := x_spawn, y := y_spawn, velocity := velocity
    screen_height := screen_height, num_blocks := num_blocks
    gap_range := gap_range
    blocks := Obstacle.create_blocks x_spawn velocity num_blocks gap_range
    passed := false }

/-- `Obstacle.update`: advance `x` and update every block. -/
def Obstacle.update (dt : ℚ) (o : Obstacle) : Obstacle :=
  { o with x := o.x + o.velocity * dt
           blocks := o.blocks.map (ObstacleBlock.update dt) }

/-- Setting `o.passed = True` on the obstacle object. -/
def Obstacle.markPassed (o : Obstacle) : Obstacle := { o with passed := true }

/-- The environment of the bouncer.  The screen and sprite dictionary are
external; only the screen height (used to size new obstacles) and the
player's x (the only player field the environment reads, and one the
bouncer never mutates) are kept. -/
structure Environment where
  obstacles : List Obstacle
  obstacle_spawn_point : ℚ := 1280
  obstacle_velocity : ℚ
  new_obstacle_timer : ℕ
  obstacle_gap : ℕ
  freq : ℕ
  screen_height : ℕ
  player_x : ℚ
  score_tracker : ℕ
  deriving Repr, DecidableEq

/-- The body of `for o in self.obstacles:` in
`Environment.update_obstacles`, as CPython executes it: the iterator
keeps an index `i` into the list object and stops once `i` reaches the
current length; `o = obstacles[i]` is updated in place,
`remove_obstacle` pops the FRONT of the list (shifting the iterator's
view, so the element after a removal is skipped, and the popped element
is not `o` when `i > 0`), and the pass-check then marks `o` (which is in
the list at `i - 1` after a pop with `i > 0`, gone from it after a pop
with `i = 0`, and at `i` otherwise) and bumps the score.  `fuel` bounds
the iteration count; the index grows by one each step while the list
never grows, so the list's initial length is an exact bound. -/
def tickLoopAux (px dt : ℚ) :
    ℕ → ℕ → List Obstacle → ℕ → List Obstacle × ℕ
  | 0, _, obs, score => (obs, score)
  | fuel + 1, i, obs, score =>
    if h : obs.length ≤ i then (obs, score)
    else
      let o := Obstacle.update dt (obs.get ⟨i, by omega⟩)
      if o.x < -200 then
        let obs2 := (obs.set i o).tail
        if o.x < px ∧ o.passed = false then
          tickLoopAux px dt fuel (i + 1)
            (if i = 0 then obs2 else obs2.set (i - 1) o.markPassed)
            (score + 1)
        else tickLoopAux px dt fuel (i + 1) obs2 score
      else
        if o.x < px ∧ o.passed = false then
          tickLoopAux px dt fuel (i + 1) (obs.set i o.markPassed) (score + 1)
        else tickLoopAux px dt fuel (i + 1) (obs.set i o) score

/-- The obstacle loop of `Environment.update_obstacles`, run from index
0 with exact fuel. -/
def tickLoop (px dt : ℚ) (obs : List Obstacle) (score : ℕ) :
    List Obstacle × ℕ :=
  tickLoopAux px dt obs.length 0 obs score

/-- `Environment.update_obstacles`: run the loop over the obstacles,
then spawn a new obstacle (gap start drawn by `random.randint(2,10)`,
passed in here as the oracle `gap`) and zero the timer when
`new_obstacle_timer > freq`, and finally always bump the timer. -/
def Environment.update_obstacles (dt : ℚ) (gap : ℕ) (e : Environment) :
    Environment :=
  let r := tickLoop e.player_x dt e.obstacles e.score_tracker
  let spawn := e.freq < e.new_obstacle_timer
  let obs := if spawn then
      r.1 ++ [Obstacle.init e.obstacle_spawn_point 0 e.obstacle_velocity
        e.screen_height e.obstacle_gap gap]
    else r.1
  let timer := if spawn then 0 else e.new_obstacle_timer
  { e with obstacles := obs, score_tracker := r.2
           new_obstacle_timer := timer + 1 }

/-- The mutable state of `MainScene`: the static configuration it was
built from (screen size and debug flag; the sprite dictionary is
external), plus the player, environment, score counter and the
delta-time sample. -/
structure MainState where
  screen_w : ℕ
  screen_h : ℕ
  debug : Bool
  previous_time : Option ℚ
  player : Player
  env : Environment
  score : ℕ
  deriving Repr, DecidableEq

/-- `MainScene.__init__`: game parameters are the literals of the
source (`GRAVITY_CONSTANT = 1700`, `PLAYER_VEL = 200`, `OBS_FREQ = 800`,
`OBS_VEL = -200`, `OBS_GAP = 2`); the player starts at the screen
centre, the environment starts empty with timer and score 0, and the
scene's displayed score starts at 0. -/
def MainScene.init (screen_w screen_h : ℕ) (debug : Bool) : MainState :=
  let player : Player :=
    { x := (screen_w : ℚ) / 2, y := (screen_h : ℚ) / 2, velocity := 200,
      gravity_constant := 1700, rect := (0, 0) }
  { screen_w := screen_w, screen_h := screen_h, debug := debug
    previous_time := none
    player := player
    env := { obstacles := [], obstacle_velocity := -200,
             new_obstacle_timer := 0, obstacle_gap := 2, freq := 800,
             screen_height := screen_h, player_x := player.x,
             score_tracker := 0 }
    score := 0 }

/-- A scene of the bouncer's registry: the start menu, the main game
scene with its state, or the death screen.  Every scene carries the
static configuration (`screen`, `debug`) that `reset_main` reads. -/
inductive SceneV where
  | startScene (screen_w screen_h : ℕ) (debug : Bool)
  | mainScene (ms : MainState)
  | deathScene (screen_w screen_h : ℕ) (debug : Bool)
  deriving Repr, DecidableEq

def SceneV.screenW : SceneV → ℕ
  | .startScene w _ _ => w
  | .mainScene ms => ms.screen_w
  | .deathScene w _ _ => w

def SceneV.screenH : SceneV → ℕ
  | .startScene _ h _ => h
  | .mainScene ms => ms.screen_h
  | .deathScene _ h _ => h

def SceneV.debugFlag : SceneV → Bool
  | .startScene _ _ d => d
  | .mainScene ms => ms.debug
  | .deathScene _ _ d => d

/-- `SceneManager`: the named scene registry, the reference to the
single active scene (the object, as in the source — not a name), and
the quit flag. -/
structure SceneManager where
  scenes : List (String × SceneV)
  current_scene : SceneV
  quit : Bool
  deriving Repr, DecidableEq

/-- `SceneManager.set_scene`: point the active-scene reference at the
registry entry; a registry miss is a `KeyError` (`none`). -/
def SceneManager.set_scene (m : SceneManager) (new_scene : String) :
    Option SceneManager :=
  (dictGet m.scenes new_scene).map fun s => { m with current_scene := s }

/-- `SceneManager.reset_main`: replace the registry's `"main"` entry by
a freshly constructed `MainScene` built from the old entry's static
configuration.  The active-scene reference is NOT touched. -/
def SceneManager.reset_main (m : SceneManager) : Option SceneManager :=
  (dictGet m.scenes "main").map fun s =>
    { m with scenes := (dictSet m.scenes "main"
        (SceneV.mainScene (MainScene.init s.screenW s.screenH s.debugFlag))) }

/-- `SceneManager.quit_game`. -/
def SceneManager.quit_game (m : SceneManager) : SceneManager :=
  { m with quit := true }

end BB

/-! ## `rpg.py` (animation system) -/

namespace RPG

/-- One animation: keyframes are sprite ids into the named tileset.
`current_sprite_id` starts at 0 and is only assigned when the cursor
advances. -/
structure Animation where
  name : String
  tileset : String
  current_sprite_id : ℕ
  keyframes : List ℕ
  loop_animation : Bool
  animation_frequency : ℚ
  current_keyframe : ℕ
  keyframe_time : ℚ
  deriving Repr, DecidableEq

/-- `Animation.__init__`: cursor, timer, frequency and sprite id all 0,
loop flag off. -/
def Animation.init (name tileset : String) (keyframes : List ℕ) : Animation :=
  { name := name, tileset := tileset, current_sprite_id := 0,
    keyframes := keyframes, loop_animation := false,
    animation_frequency := 0, current_keyframe := 0, keyframe_time := 0 }

/-- `Animation.deactivate_animation` (the Animation-level one): zero the
frequency and clear the loop flag; cursor and sprite id are kept. -/
def Animation.deactivate_animation (a : Animation) : Animation :=
  { a with animation_frequency := 0, loop_animation := false }

/-- `Animation.update`: accumulate `dt`; once the per-frame timer
reaches the frequency, either wrap to keyframe 0 (looping, at the end),
self-deactivate (non-looping, at the end), or advance the cursor and
assign the sprite at the new keyframe; the timer is zeroed whenever the
threshold was reached.  The end test is the source's
`len(self.keyframes) - 1 <= self.current_keyframe` over Python ints. -/
def Animation.update (dt : ℚ) (a : Animation) : Animation :=
  let kt := a.keyframe_time + dt
  if a.animation_frequency ≤ kt then
    let a2 :=
      if (a.keyframes.length : ℤ) - 1 ≤ (a.current_keyframe : ℤ) then
        if a.loop_animation then { a with current_keyframe := 0 }
        else a.deactivate_animation
      else
        { a with current_keyframe := a.current_keyframe + 1,
                 current_sprite_id := a.keyframes.getD (a.current_keyframe + 1) 0 }
    { a2 with keyframe_time := 0 }
  else { a with keyframe_time := kt }

/-- The manager's `active_animation` reference: `None`, the standalone
dummy built at construction, or an alias of a registry entry (mutations
through the alias are seen by the registry and vice versa, so the alias
is modelled by the registered name). -/
inductive ActiveRef where
  | noneActive
  | standalone (a : Animation)
  | reg (name : String)
  deriving Repr, DecidableEq

/-- `AnimationManager`: tilesets are kept by name (their images are
external); animations are a name-keyed dictionary. -/
structure AnimationManager where
  tilesets : List String
  animations : List (String × Animation)
  active : ActiveRef
  deriving Repr, DecidableEq

/-- `AnimationManager.__init__`: no registered animations; the active
animation defaults to a standalone dummy over the first tileset. -/
def AnimationManager.init (tilesets : List String) : AnimationManager :=
  { tilesets := tilesets, animations := [],
    active := ActiveRef.standalone (Animation.init "dummy" (tilesets.headD "") [0]) }

/-- `AnimationManager.register_animation`: store a fresh `Animation`
under the name — with NO validation of the id sequence; the only
failure is a `KeyError` on an unknown tileset name. -/
def AnimationManager.register_animation (m : AnimationManager) (name : String)
    (sprite_ids : List ℕ) (tileset : String) : Option AnimationManager :=
  if tileset ∈ m.tilesets then
    some { m with animations := (dictSet m.animations name
      (Animation.init name tileset sprite_ids)) }
  else none

/-- `AnimationManager.get_current_sprite`: the active animation's
current sprite, or a blank `Surface((0,0))` (modelled `none`) when no
animation is active. -/
def AnimationManager.get_current_sprite (m : AnimationManager) :
    Option (String × ℕ) :=
  match m.active with
  | .noneActive => none
  | .standalone a => some (a.tileset, a.current_sprite_id)
  | .reg n => (dictGet m.animations n).map fun a =>
      (a.tileset, a.current_sprite_id)

/-- `AnimationManager.update`: update the active animation in place (a
no-op when none is active). -/
def AnimationManager.update (dt : ℚ) (m : AnimationManager) : AnimationManager :=
  match m.active with
  | .noneActive => m
  | .standalone a => { m with active := ActiveRef.standalone (a.update dt) }
  | .reg n =>
      match dictGet m.animations n with
      | some a => { m with animations := dictSet m.animations n (a.update dt) }
      | none => m

/-- `AnimationManager.activate_animation`: point the active reference at
the registry entry and set ONLY its frequency and loop flag (a
`KeyError` on an unknown name); the entry's cursor and timer are left
as they were. -/
def AnimationManager.activate_animation (m : AnimationManager)
    (animation : String) (frequency : ℚ) (loop : Bool) :
    Option AnimationManager :=
  (dictGet m.animations animation).map fun a =>
    { m with active := ActiveRef.reg animation,
             animations := (dictSet m.animations animation
               { a with animation_frequency := frequency,
                        loop_animation := loop }) }

/-- `AnimationManager.deactivate_animation` (the manager-level one). -/
def AnimationManager.deactivate_animation (m : AnimationManager) :
    AnimationManager :=
  { m with active := ActiveRef.noneActive }

end RPG

/-! ## `simple_game.py` (collector) -/

namespace SG

/-- The collector's player. -/
structure Player where
  x : ℚ
  y : ℚ
  angle : ℤ
  direction : String
  velocity : ℚ
  moving : Bool
  boundaries : ℚ × ℚ
  rect : ℤ × ℤ
  deriving Repr, DecidableEq

/-- `Player.move`: advance along the current cardinal direction, then
clamp both coordinates to `[0, boundary − 48]` (the 48×48 sprite), min
first then max, exactly as the source. -/
def Player.move (dt : ℚ) (p : Player) : Player :=
  let p1 :=
    if p.direction = "up" then { p with y := p.y - p.velocity * dt }
    else if p.direction = "down" then { p with y := p.y + p.velocity * dt }
    else if p.direction = "left" then { p with x := p.x - p.velocity * dt }
    else if p.direction = "right" then { p with x := p.x + p.velocity * dt }
    else p
  { p1 with x := max 0 (min (p.boundaries.1 - 48) p1.x),
            y := max 0 (min (p.boundaries.2 - 48) p1.y) }

/-- `Player.update`: move when the moving flag is set, then recompute
the rect from the truncated position. -/
def Player.update (dt : ℚ) (p : Player) : Player :=
  let p1 := if p.moving then p.move dt else p
  { p1 with rect := (pytrunc p1.x, pytrunc p1.y) }

end SG

/-! ## Concrete instances used by the scenario theorems -/

/-- A bare obstacle for concrete scenarios (no blocks; the loop only
reads `x` and `passed`). -/
def mkObs (x : ℚ) (p : Bool) : BB.Obstacle :=
  { x := x, y := 0, velocity := -200, screen_height := 720,
    num_blocks := 15, gap_range := (2, 4), blocks := [], passed := p }

/-- An empty environment with spawn threshold 800 and timer `t`. -/
def envT (t : ℕ) : BB.Environment :=
  { obstacles := [], obstacle_velocity := -200, new_obstacle_timer := t,
    obstacle_gap := 2, freq := 800, screen_height := 720, player_x := 640,
    score_tracker := 0 }

/-- A concrete three-scene manager whose active scene is `"main"`. -/
def mgr9 : BB.SceneManager :=
  { scenes := [("start", BB.SceneV.startScene 1280 720 false),
               ("main", BB.SceneV.mainScene (BB.MainScene.init 1280 720 false)),
               ("death", BB.SceneV.deathScene 1280 720 false)],
    current_scene := BB.SceneV.mainScene (BB.MainScene.init 1280 720 false),
    quit := false }

/-- The C1 scenario: register an animation `"a"` with keyframes
`[5, 6]`, activate it, tick one full frame duration (the cursor moves to
keyframe 1), then activate `"a"` again. -/
def mgrC1 : Option RPG.AnimationManager :=
  ((RPG.AnimationManager.init ["ts"]).register_animation "a" [5, 6] "ts").bind
    fun m1 => (m1.activate_animation "a" 1 false).bind
    fun m2 => (m2.update 1).activate_animation "a" 1 false

/-- A registered animation whose cursor has already advanced to 1. -/
def animW1 : RPG.Animation :=
  { name := "a", tileset := "ts", current_sprite_id := 6, keyframes := [5, 6],
    loop_animation := false, animation_frequency := 1, current_keyframe := 1,
    keyframe_time := 0 }

/-- A manager holding `animW1` as its only (and active) animation. -/
def mgrW1 : RPG.AnimationManager :=
  { tilesets := ["ts"], animations := [("a", animW1)],
    active := RPG.ActiveRef.reg "a" }

/-- The C5 scenario: `"a"` has the 2-frame sequence `[7, 8]` at frame
duration 1, non-looping; after activation it is ticked for a total time
of 3 > 2 × 1. -/
def mgrC5 : Option RPG.AnimationManager :=
  ((RPG.AnimationManager.init ["ts"]).register_animation "a" [7, 8] "ts").bind
    fun m1 => (m1.activate_animation "a" 1 false).map
    fun m2 => ((m2.update 1).update 1).update 1

/-- A non-looping animation sitting at its last keyframe. -/
def animW5 : RPG.Animation :=
  { name := "a", tileset := "ts", current_sprite_id := 8, keyframes := [7, 8],
    loop_animation := false, animation_frequency := 1, current_keyframe := 1,
    keyframe_time := 0 }

/-- A manager holding `animW5` as its only (and active) animation. -/
def mgrW5 : RPG.AnimationManager :=
  { tilesets := ["ts"], animations := [("a", animW5)],
    active := RPG.ActiveRef.reg "a" }

/-- A concrete in-bounds collector player, moving down fast. -/
def pW : SG.Player :=
  { x := 50, y := 50, angle := 0, direction := "down", velocity := 200,
    moving := true, boundaries := (1280, 720), rect := (50, 50) }

end PygameExp

namespace PygameExp

theorem Obstacle.passed_update (dt : ℚ) (o : BB.Obstacle) :
    (BB.Obstacle.update dt o).passed = o.passed := rfl

theorem tickLoopAux_score_mono (px dt : ℚ) :
    ∀ (fuel i : ℕ) (obs : List BB.Obstacle) (s : ℕ),
      s ≤ (BB.tickLoopAux px dt fuel i obs s).2 := by
  intro fuel
  induction fuel with
  | zero => intro i obs s; simp [BB.tickLoopAux]
  | succ n ih =>
      intro i obs s
      simp only [BB.tickLoopAux]
      split
      · exact le_refl s
      · split
        · split
          · exact (Nat.le_succ s).trans (ih _ _ _)
          · exact ih _ _ _
        · split
          · exact (Nat.le_succ s).trans (ih _ _ _)
          · exact ih _ _ _

theorem tickLoopAux_allPassed (px dt : ℚ) :
    ∀ (fuel i : ℕ) (obs : List BB.Obstacle) (s : ℕ),
      (∀ o ∈ obs, o.passed = true) →
      (BB.tickLoopAux px dt fuel i obs s).2 = s ∧
      (∀ o ∈ (BB.tickLoopAux px dt fuel i obs s).1, o.passed = true) := by
  intro fuel
  induction fuel with
  | zero => intro i obs s hall; simpa [BB.tickLoopAux] using hall
  | succ n ih =>
      intro i obs s hall
      simp only [BB.tickLoopAux, List.get_eq_getElem]
      split
      · exact ⟨rfl, hall⟩
      · rename_i h
        have hlt : i < obs.length := by omega
        have hmem : obs[i] ∈ obs := List.getElem_mem hlt
        have hpass : (BB.Obstacle.update dt obs[i]).passed = true := by
          rw [Obstacle.passed_update]; exact hall _ hmem
        have hset : ∀ o ∈ obs.set i (BB.Obstacle.update dt obs[i]),
            o.passed = true := by
          intro o ho
          rcases List.mem_or_eq_of_mem_set ho with h' | h'
          · exact hall _ h'
          · rw [h']; exact hpass
        split
        · split
          · rename_i hcond
            simp [hpass] at hcond
          · exact ih _ _ _ (fun o ho => hset _ (List.mem_of_mem_tail ho))
        · split
          · rename_i hcond
            simp [hpass] at hcond
          · exact ih _ _ _ hset

/-- C7: one kinematic update step is linear in `dt`: the moved coordinate
advances by `velocity * dt` using the pre-update velocity, the gravity
(when configured, i.e. for the player) then adds `gravity * dt` to the
velocity, and the bounding rect is recomputed from the truncated updated
position. -/
theorem kinematic_update_linear (p : BB.Player) (b : BB.ObstacleBlock)
    (dt : ℚ) (hdt : 0 ≤ dt) :
    ((p.update dt).y = p.y + p.velocity * dt ∧
     (p.update dt).velocity = p.velocity + p.gravity_constant * dt ∧
     (p.update dt).x = p.x ∧
     (p.update dt).rect = (pytrunc p.x, pytrunc (p.y + p.velocity * dt))) ∧
    ((b.update dt).x = b.x + b.velocity * dt ∧
     (b.update dt).y = b.y ∧
     (b.update dt).rect = (pytrunc (b.x + b.velocity * dt), pytrunc b.y)) := by
  refine ⟨⟨rfl, rfl, rfl, rfl⟩, rfl, rfl, rfl⟩

/-- C2 counterexample: with frequency threshold 800, the tick executed at
timer 799 spawns nothing (timer becomes 800), and the NEXT tick — at
timer 800, where the claim requires exactly one obstacle to be appended
and the timer to be reset to 0 — also spawns nothing and leaves the
timer at 801. -/
theorem spawn_at_threshold_refuted :
    ((envT 799).update_obstacles 0 5).obstacles = [] ∧
    ((envT 799).update_obstacles 0 5).new_obstacle_timer = 800 ∧
    (((envT 799).update_obstacles 0 5).update_obstacles 0 5).obstacles = [] ∧
    (((envT 799).update_obstacles 0 5).update_obstacles 0 5).new_obstacle_timer
      = 801 := by decide

/-- C2 (amended): a spawn occurs only on the tick at which the per-tick
timer STRICTLY exceeds the frequency threshold (`timer > freq`), not on
the tick at which it reaches it: starting from an empty obstacle set,
any tick with `timer ≤ freq` appends nothing and bumps the timer, while
a tick with `timer = freq + 1` (or more) appends exactly one obstacle,
resets the timer to 0 and then the unconditional end-of-tick increment
leaves it at 1. -/
theorem spawn_on_timer_exceeding_threshold (e : BB.Environment) (gap : ℕ)
    (dt : ℚ) (hobs : e.obstacles = []) :
    (e.new_obstacle_timer ≤ e.freq →
      (e.update_obstacles dt gap).obstacles = [] ∧
      (e.update_obstacles dt gap).new_obstacle_timer
        = e.new_obstacle_timer + 1) ∧
    (e.freq < e.new_obstacle_timer →
      (e.update_obstacles dt gap).obstacles.length = 1 ∧
      (e.update_obstacles dt gap).new_obstacle_timer = 1) := by
  constructor
  · intro hle
    have hns : ¬ e.freq < e.new_obstacle_timer := by omega
    simp [BB.Environment.update_obstacles, BB.tickLoop, BB.tickLoopAux,
      hobs, hns]
  · intro hlt
    simp [BB.Environment.update_obstacles, BB.tickLoop, BB.tickLoopAux,
      hobs, hlt]

theorem spawn_on_timer_exceeding_threshold_witness :
    ((envT 801).update_obstacles 0 5).obstacles.length = 1 ∧
    ((envT 801).update_obstacles 0 5).new_obstacle_timer = 1 :=
  (spawn_on_timer_exceeding_threshold (envT 801) 5 0 rfl).2 (by decide)

/-- C3 counterexample: in a tick where all three obstacles are
off-screen, TWO obstacles (not exactly one) are removed — each removal
pops the front, and the removal triggered while examining the third
(shifted) element pops the second. -/
theorem single_removal_per_tick_refuted :
    (BB.tickLoop 640 0
      [mkObs (-300) true, mkObs (-300) true, mkObs (-300) true] 0).1
      = [mkObs (-300) true] := by
  norm_num [BB.tickLoop, BB.tickLoopAux, mkObs, BB.Obstacle.update,
    BB.Obstacle.markPassed]

/-- C3 (amended): removal always takes the oldest obstacle (the front of
the sequence), and in the spec's cited scenario — `[o1, o2, o3]` with
`o1` off-screen after its update and `o3` not — exactly one obstacle is
removed that tick and it is `o1`; the skipped `o2` is left entirely
untouched (not even updated) that tick.  More than one obstacle can be
removed in a single tick when three or more are off-screen. -/
theorem fifo_front_removal (o1 o2 o3 : BB.Obstacle) (px dt : ℚ) (s : ℕ)
    (h1 : (BB.Obstacle.update dt o1).x < -200)
    (h3 : ¬ (BB.Obstacle.update dt o3).x < -200)
    (hp1 : o1.passed = true) (hp3 : o3.passed = true) :
    BB.tickLoop px dt [o1, o2, o3] s = ([o2, BB.Obstacle.update dt o3], s) := by
  simp [BB.tickLoop, BB.tickLoopAux, h1, h3, hp1, hp3,
    Obstacle.passed_update]

theorem fifo_front_removal_witness :
    BB.tickLoop 640 0 [mkObs (-300) true, mkObs (-250) true, mkObs 100 true] 0
      = ([mkObs (-250) true, BB.Obstacle.update 0 (mkObs 100 true)], 0) :=
  fifo_front_removal (mkObs (-300) true) (mkObs (-250) true) (mkObs 100 true)
    640 0 0 (by norm_num [BB.Obstacle.update, mkObs])
    (by norm_num [BB.Obstacle.update, mkObs]) rfl rfl

/-- C4: on a 720-pixel screen (15 block rows), an obstacle constructed
with `gap_loc = 2` and `gap_height = 2` creates 12 blocks, omitting the
three rows 2, 3 and 4 — the source's condition
`i < gap_range[0] or i > gap_range[1]` keeps a block only outside the
CLOSED interval `[gap_loc, gap_loc + gap_height]`, so `gap_height + 1`
rows are missing, contradicting both the claim's half-open
`[gap_start, gap_end)` and the code's own comment that `gap_height` is
the number of blocks missing (which would give 13 blocks here). -/
theorem gap_excludes_closed_range :
    (BB.Obstacle.init 1280 0 (-200) 720 2 2).num_blocks = 15 ∧
    (BB.Obstacle.init 1280 0 (-200) 720 2 2).blocks.length = 12 ∧
    (BB.Obstacle.init 1280 0 (-200) 720 2 2).blocks.map BB.ObstacleBlock.y
      = [0, 48, 240, 288, 336, 384, 432, 480, 528, 576, 624, 672] := by
  have hr : List.range 15 = [0, 1, 2, 3, 4, 5, 6, 7, 8, 9, 10, 11, 12, 13, 14] := by
    decide
  have ht : (15 : ℤ).toNat = 15 := rfl
  norm_num [BB.Obstacle.init, BB.Obstacle.create_blocks, pyround, ht, hr,
    List.filterMap_cons, List.filterMap_nil]

/-- C6 counterexample: obstacles `[o1, o2]` with `o1` off-screen and
already passed, and `o2` at x = 100 < player x = 640 and not yet passed:
the tick removes `o1`, which SKIPS `o2`'s pass check, so although this
is a tick at which `o2.x` is below the player's x, the score is not
incremented and `o2` is not marked — the increment is deferred to a
later tick. -/
theorem score_on_first_passing_tick_refuted :
    (mkObs 100 false).x < 640 ∧ (mkObs 100 false).passed = false ∧
    (BB.tickLoop 640 0 [mkObs (-300) true, mkObs 100 false] 0).2 = 0 ∧
    (BB.tickLoop 640 0 [mkObs (-300) true, mkObs 100 false] 0).1.map
      BB.Obstacle.passed = [false] := by
  norm_num [BB.tickLoop, BB.tickLoopAux, mkObs, BB.Obstacle.update,
    BB.Obstacle.markPassed]

/-- C6 (amended): the score is monotonically non-decreasing under the
environment tick; a tick in which every obstacle is already marked
passed never changes the score ("never again"); and an obstacle whose
pass check executes while its x is below the player's x and its flag is
clear is marked and increments the score exactly then — once marked it
never increments again on any later tick.  The increment happens on the
first tick at which the obstacle's CHECK executes with x below the
player's x, which can be one tick after x first drops below it when a
removal in the same tick skips the check. -/
theorem score_increment_once (px dt dt2 : ℚ) (o : BB.Obstacle) (s : ℕ)
    (h1 : ¬ (BB.Obstacle.update dt o).x < -200)
    (h2 : (BB.Obstacle.update dt o).x < px)
    (h3 : o.passed = false) :
    (∀ (e : BB.Environment) (gap : ℕ),
      e.score_tracker ≤ (e.update_obstacles dt gap).score_tracker) ∧
    (∀ (obs : List BB.Obstacle) (t : ℕ), (∀ o' ∈ obs, o'.passed = true) →
      (BB.tickLoop px dt obs t).2 = t) ∧
    BB.tickLoop px dt [o] s = ([(BB.Obstacle.update dt o).markPassed], s + 1) ∧
    (BB.tickLoop px dt2 [(BB.Obstacle.update dt o).markPassed] (s + 1)).2
      = s + 1 := by
  refine ⟨?_, ?_, ?_, ?_⟩
  · intro e gap
    simp only [BB.Environment.update_obstacles]
    exact tickLoopAux_score_mono e.player_x dt _ _ _ _
  · intro obs t hall
    exact (tickLoopAux_allPassed px dt _ _ _ _ hall).1
  · simp [BB.tickLoop, BB.tickLoopAux, h1, h2, h3, Obstacle.passed_update]
  · refine (tickLoopAux_allPassed px dt2 _ _ _ _ ?_).1
    intro o' ho'
    simp only [List.mem_singleton] at ho'
    rw [ho']; rfl

theorem score_increment_once_witness :
    BB.tickLoop 640 0 [mkObs 100 false] 0
      = ([(BB.Obstacle.update 0 (mkObs 100 false)).markPassed], 1) ∧
    (BB.tickLoop 640 0 [(BB.Obstacle.update 0 (mkObs 100 false)).markPassed]
      1).2 = 1 := by
  have h := score_increment_once 640 0 0 (mkObs 100 false) 0
    (by norm_num [BB.Obstacle.update, mkObs])
    (by norm_num [BB.Obstacle.update, mkObs]) rfl
  exact ⟨h.2.2.1, h.2.2.2⟩

/-- C9: with `"main"` bound to a main scene and `"death"` to the death
scene, `set_scene("death")` only repoints the active-scene reference at
the death scene — subsequent dispatch goes to it — and leaves the
registry, hence all of main's internal state (timers, score, entities),
unchanged; `reset_main()` instead replaces the registry's `"main"`
entry with a freshly constructed scene built from the same static
configuration, whose score (and environment score tracker) is 0. -/
theorem scene_switch_vs_reset (m : BB.SceneManager) (ms : BB.MainState)
    (dw dh : ℕ) (dd : Bool)
    (hmain : dictGet m.scenes "main" = some (BB.SceneV.mainScene ms))
    (hdeath : dictGet m.scenes "death" = some (BB.SceneV.deathScene dw dh dd))
    (hcur : m.current_scene = BB.SceneV.mainScene ms) :
    m.set_scene "death"
      = some { m with current_scene := BB.SceneV.deathScene dw dh dd } ∧
    (m.set_scene "death").map BB.SceneManager.scenes = some m.scenes ∧
    m.reset_main = some { m with scenes := (dictSet m.scenes "main"
      (BB.SceneV.mainScene
        (BB.MainScene.init ms.screen_w ms.screen_h ms.debug))) } ∧
    (m.reset_main).map BB.SceneManager.current_scene
      = some m.current_scene ∧
    (∀ m', m.reset_main = some m' →
      dictGet m'.scenes "main" = some (BB.SceneV.mainScene
        (BB.MainScene.init ms.screen_w ms.screen_h ms.debug))) ∧
    (BB.MainScene.init ms.screen_w ms.screen_h ms.debug).score = 0 ∧
    (BB.MainScene.init ms.screen_w ms.screen_h ms.debug).env.score_tracker
      = 0 := by
  refine ⟨?_, ?_, ?_, ?_, ?_, rfl, rfl⟩
  · simp [BB.SceneManager.set_scene, hdeath]
  · simp [BB.SceneManager.set_scene, hdeath]
  · simp [BB.SceneManager.reset_main, hmain, BB.SceneV.screenW,
      BB.SceneV.screenH, BB.SceneV.debugFlag]
  · simp [BB.SceneManager.reset_main, hmain]
  · intro m' hm'
    simp [BB.SceneManager.reset_main, hmain] at hm'
    rw [← hm']
    exact dictGet_dictSet _ _ _

theorem scene_switch_vs_reset_witness :
    mgr9.set_scene "death"
      = some { mgr9 with current_scene := BB.SceneV.deathScene 1280 720 false } ∧
    (BB.MainScene.init 1280 720 false).score = 0 := by
  have h := scene_switch_vs_reset mgr9 (BB.MainScene.init 1280 720 false)
    1280 720 false rfl rfl rfl
  exact ⟨h.1, h.2.2.2.2.2.1⟩

/-- C1 counterexample: after re-activating `"a"`, the animation's frame
cursor is still 1, not the 0 the claim requires — `activate_animation`
sets only the frequency and loop flag and never resets the cursor or
timer. -/
theorem activation_resets_cursor_refuted :
    (mgrC1.bind fun m => (dictGet m.animations "a").map
      RPG.Animation.current_keyframe) = some 1 := by
  norm_num [mgrC1, RPG.AnimationManager.init,
    RPG.AnimationManager.register_animation,
    RPG.AnimationManager.activate_animation, RPG.AnimationManager.update,
    RPG.Animation.update, RPG.Animation.init,
    RPG.Animation.deactivate_animation, dictSet, dictGet, Option.bind]

/-- C1 (amended): activating a registered animation makes it the active
animation and sets its frame duration and loop flag, but PRESERVES its
frame cursor and elapsed-time accumulator (they are 0 after a fresh
registration only because the constructor zeroes them; a previously
advanced animation resumes where it stopped). -/
theorem activation_preserves_cursor (m : RPG.AnimationManager)
    (name : String) (f : ℚ) (l : Bool) (a : RPG.Animation)
    (ha : dictGet m.animations name = some a) :
    m.activate_animation name f l
      = some { m with
          active := RPG.ActiveRef.reg name,
          animations := (dictSet m.animations name
            { a with animation_frequency := f, loop_animation := l }) } ∧
    (∀ m', m.activate_animation name f l = some m' →
      dictGet m'.animations name
        = some { a with animation_frequency := f, loop_animation := l }) ∧
    ({ a with animation_frequency := f, loop_animation := l }
      : RPG.Animation).current_keyframe = a.current_keyframe ∧
    ({ a with animation_frequency := f, loop_animation := l }
      : RPG.Animation).keyframe_time = a.keyframe_time := by
  refine ⟨?_, ?_, rfl, rfl⟩
  · simp [RPG.AnimationManager.activate_animation, ha]
  · intro m' hm'
    simp [RPG.AnimationManager.activate_animation, ha] at hm'
    rw [← hm']
    exact dictGet_dictSet _ _ _

theorem activation_preserves_cursor_witness :
    (mgrW1.activate_animation "a" 2 true).map
      (fun m => (dictGet m.animations "a").map RPG.Animation.current_keyframe)
      = some (some 1) := by
  have h := activation_preserves_cursor mgrW1 "a" 2 true animW1 rfl
  have h2 := h.2.1 _ h.1
  rw [h.1]
  simp [h2]
  rfl

/-- C5 counterexample: after the non-looping 2-frame animation's total
duration has elapsed (3 > 2×1 ticked), the manager's active animation is
STILL the registry entry `"a"` — `Animation.update` calls the
Animation-level `deactivate_animation`, which only zeroes the frequency,
never the manager's reference — and the current-frame query keeps
returning the last assigned sprite (tile 8), not the blank surface. -/
theorem nonloop_deactivation_blank_refuted :
    (mgrC5.map RPG.AnimationManager.active)
      = some (RPG.ActiveRef.reg "a") ∧
    (mgrC5.bind RPG.AnimationManager.get_current_sprite)
      = some ("ts", 8) := by
  constructor <;>
  norm_num [mgrC5, RPG.AnimationManager.init,
    RPG.AnimationManager.register_animation,
    RPG.AnimationManager.activate_animation, RPG.AnimationManager.update,
    RPG.AnimationManager.get_current_sprite, RPG.Animation.update,
    RPG.Animation.init, RPG.Animation.deactivate_animation, dictSet,
    dictGet, Option.bind]

/-- C5 (amended): when a non-looping active animation reaches the end of
its run (timer at or past the frame duration with the cursor on the last
keyframe), the tick self-deactivates the Animation object — frequency
and loop flag zeroed, timer reset — but the MANAGER's active animation
remains set to it, and the current-frame query keeps returning the
sprite at the animation's current sprite id rather than the blank
frame (the blank frame is returned only after the manager-level
`deactivate_animation`, which this code path never calls). -/
theorem nonloop_end_self_deactivates (m : RPG.AnimationManager) (n : String)
    (a : RPG.Animation) (dt : ℚ)
    (hact : m.active = RPG.ActiveRef.reg n)
    (ha : dictGet m.animations n = some a)
    (hloop : a.loop_animation = false)
    (hend : (a.keyframes.length : ℤ) - 1 ≤ (a.current_keyframe : ℤ))
    (htime : a.animation_frequency ≤ a.keyframe_time + dt) :
    m.update dt = { m with animations := (dictSet m.animations n
      { a with animation_frequency := 0, loop_animation := false,
               keyframe_time := 0 }) } ∧
    (m.update dt).active = RPG.ActiveRef.reg n ∧
    (m.update dt).get_current_sprite
      = some (a.tileset, a.current_sprite_id) := by
  have hupd : RPG.Animation.update dt a
      = { a with animation_frequency := 0, loop_animation := false,
                 keyframe_time := 0 } := by
    simp [RPG.Animation.update, RPG.Animation.deactivate_animation,
      htime, hend, hloop]
  have h1 : m.update dt = { m with animations := (dictSet m.animations n
      { a with animation_frequency := 0, loop_animation := false,
               keyframe_time := 0 }) } := by
    simp [RPG.AnimationManager.update, hact, ha, hupd]
  refine ⟨h1, ?_, ?_⟩
  · rw [h1]; exact hact
  · rw [h1]
    simp [RPG.AnimationManager.get_current_sprite, hact, dictGet_dictSet]

theorem nonloop_end_self_deactivates_witness :
    (mgrW5.update 1).active = RPG.ActiveRef.reg "a" ∧
    (mgrW5.update 1).get_current_sprite = some ("ts", 8) := by
  have h := nonloop_end_self_deactivates mgrW5 "a" animW5 1 rfl rfl rfl
    (by norm_num [animW5]) (by norm_num [animW5])
  exact ⟨h.2.1, h.2.2⟩

/-- C8 counterexample: registering the EMPTY frame sequence succeeds —
no `InvalidAnimation` failure exists anywhere in the code — and
associates the name with the empty sequence. -/
theorem register_empty_fails_refuted :
    ((RPG.AnimationManager.init ["ts"]).register_animation "a" [] "ts").bind
      (fun m => dictGet m.animations "a")
      = some (RPG.Animation.init "a" "ts" []) ∧
    (RPG.Animation.init "a" "ts" []).keyframes = [] := ⟨rfl, rfl⟩

/-- C8 (amended): registration never validates the frame sequence: for
EVERY sequence, empty or not, it succeeds (provided the named tileset
exists — an unknown tileset is the sole failure, a `KeyError`) and
associates the name with a fresh animation holding that ordered
sequence. -/
theorem register_accepts_any_sequence (m : RPG.AnimationManager)
    (name tileset : String) (ids : List ℕ) (hts : tileset ∈ m.tilesets) :
    m.register_animation name ids tileset
      = some { m with animations := (dictSet m.animations name
          (RPG.Animation.init name tileset ids)) } ∧
    ∀ m', m.register_animation name ids tileset = some m' →
      dictGet m'.animations name
        = some (RPG.Animation.init name tileset ids) := by
  constructor
  · simp [RPG.AnimationManager.register_animation, hts]
  · intro m' hm'
    simp [RPG.AnimationManager.register_animation, hts] at hm'
    rw [← hm']
    exact dictGet_dictSet _ _ _

theorem register_accepts_any_sequence_witness :
    (RPG.AnimationManager.init ["ts"]).register_animation "walk" [] "ts"
      = some { RPG.AnimationManager.init ["ts"] with
          animations := (dictSet (RPG.AnimationManager.init ["ts"]).animations
            "walk" (RPG.Animation.init "walk" "ts" [])) } :=
  (register_accepts_any_sequence (RPG.AnimationManager.init ["ts"])
    "walk" "ts" [] (by simp [RPG.AnimationManager.init])).1

/-- C10: starting from an in-bounds position, every `Player.update`
leaves the collector player's x in `[0, screen_width − 48]` and y in
`[0, screen_height − 48]`, regardless of `dt`, velocity, direction or
the moving flag — `move` clamps both coordinates after every step, and
a non-moving update does not change the position. -/
theorem player_clamped_in_bounds (p : SG.Player) (dt : ℚ)
    (hx0 : 0 ≤ p.x) (hx1 : p.x ≤ p.boundaries.1 - 48)
    (hy0 : 0 ≤ p.y) (hy1 : p.y ≤ p.boundaries.2 - 48) :
    0 ≤ (p.update dt).x ∧ (p.update dt).x ≤ p.boundaries.1 - 48 ∧
    0 ≤ (p.update dt).y ∧ (p.update dt).y ≤ p.boundaries.2 - 48 := by
  have hc1 : (0 : ℚ) ≤ p.boundaries.1 - 48 := hx0.trans hx1
  have hc2 : (0 : ℚ) ≤ p.boundaries.2 - 48 := hy0.trans hy1
  simp only [SG.Player.update, SG.Player.move]
  split
  · exact ⟨le_max_left _ _, max_le hc1 (min_le_left _ _),
           le_max_left _ _, max_le hc2 (min_le_left _ _)⟩
  · exact ⟨hx0, hx1, hy0, hy1⟩

theorem player_clamped_in_bounds_witness :
    0 ≤ (pW.update 100).x ∧ (pW.update 100).x ≤ (1280 : ℚ) - 48 ∧
    0 ≤ (pW.update 100).y ∧ (pW.update 100).y ≤ (720 : ℚ) - 48 := by
  have h := player_clamped_in_bounds pW 100 (by norm_num [pW])
    (by norm_num [pW]) (by norm_num [pW]) (by norm_num [pW])
  exact h

theorem kinematic_update_linear_witness :
    let p : BB.Player := ⟨100, 50, 30, 7, (0, 0)⟩
    let b : BB.ObstacleBlock := ⟨1280, 96, -200, (0, 0)⟩
    (p.update 2).y = 110 ∧ (b.update 2).x = 880 := by
  have h := kinematic_update_linear ⟨100, 50, 30, 7, (0, 0)⟩
    ⟨1280, 96, -200, (0, 0)⟩ 2 (by norm_num)
  refine ⟨h.1.1.trans (by norm_num), h.2.1.trans (by norm_num)⟩

end PygameExp
